import Mathlib

/-!
Shallow embedding of the OpenAI client core of this repository
(src/openai/session.rs and src/openai/chat.rs), together with theorems
checking the natural-language specification against it.

Conventions of the embedding:
* Rust `f32` values are modelled as `ℚ` (every finite float is a rational;
  non-finite floats are outside the model).
* Rust `Result<T, E>` is `Except E T`; a Rust panic (`unwrap` on `None`)
  is modelled as `Option.none` at the function result.
* The `eprintln!` diagnostics of the model resolver are modelled as an
  explicit list of emitted warnings returned next to the value.
* Console output (`print!`, `println!`, `flush`) is display-only and not part
  of any returned value; it is omitted.  The response buffer threaded through
  the stream handler is modelled exactly.
-/

namespace AIClient

instance {ε α : Type} [DecidableEq ε] [DecidableEq α] : DecidableEq (Except ε α) := fun a b =>
  match a, b with
  | .ok x, .ok y =>
    if h : x = y then isTrue (congrArg Except.ok h)
    else isFalse (fun he => h (Except.ok.inj he))
  | .error x, .error y =>
    if h : x = y then isTrue (congrArg Except.error h)
    else isFalse (fun he => h (Except.error.inj he))
  | .ok _, .error _ => isFalse (fun he => Except.noConfusion he)
  | .error _, .ok _ => isFalse (fun he => Except.noConfusion he)

/-- Error type of `crate::session` as used by src/openai/session.rs
(`SessionError::Unauthorized`, `OpenAIError`, `NoMatchingModel`,
`TemperatureOutOfValidRange`).  The payload of `OpenAIError` is irrelevant
here and abstracted to a numeric code. -/
inductive SessionError where
  | Unauthorized
  | OpenAIError (code : ℕ)
  | NoMatchingModel
  | TemperatureOutOfValidRange
deriving DecidableEq, Repr

/-- `crate::session::ModelFocus` (focus axis of a model request). -/
inductive ModelFocus where
  | Text
  | Code
deriving DecidableEq, Repr

/-- `crate::session::Model` (size tier axis of a model request). -/
inductive Model where
  | Tiny
  | Small
  | Medium
  | Large
  | XLarge
  | XXLarge
deriving DecidableEq, Repr

/-- `OpenAIModel` from src/openai/session.rs lines 75-84. -/
inductive OpenAIModel where
  | TextDavinci
  | TextCurie
  | TextBabbage
  | TextAda
  | CodeDavinci
  | CodeCushman
deriving DecidableEq, Repr

/-- `OpenAIModel::to_versioned` from src/openai/session.rs lines 87-96. -/
def OpenAIModel.to_versioned : OpenAIModel → String
  | .TextDavinci => "text-davinci-003"
  | .TextCurie => "text-curie-001"
  | .TextBabbage => "text-babbage-001"
  | .TextAda => "text-ada-001"
  | .CodeDavinci => "code-davinci-002"
  | .CodeCushman => "code-cushman-001"

/-- One invocation of the `warn_inexact_match!` diagnostic of
src/openai/session.rs lines 99-107.  The Rust call sites pass a single
size string and a single focus string, which the message template uses
for BOTH the requested and the fallback slots. -/
structure Warning where
  size : String
  focus : String
deriving DecidableEq, Repr

/-- The full diagnostic text produced by `warn_inexact_match!`
(src/openai/session.rs lines 102-104), pieced together exactly as the
Rust string concatenation does. -/
def warningMessage (w : Warning) : String :=
  "warning: No exact matching OpenAI model for " ++ w.size ++ " option with a " ++
    w.focus ++ " " ++ "focus. Falling back to " ++ w.size ++ " option with a " ++
    w.focus ++ " focus."

/-- `TryFrom<(ModelFocus, Model)> for OpenAIModel`
(src/openai/session.rs lines 109-142).  The second component collects the
warnings emitted on the way (one `warn_inexact_match!` call per fallback
arm, with exactly the string arguments of the source). -/
def OpenAIModel.tryFrom : ModelFocus × Model → Except SessionError (OpenAIModel × List Warning)
  | (.Text, .Tiny) => .ok (.TextAda, [])
  | (.Code, .Tiny) | (.Code, .Small) => .error SessionError.NoMatchingModel
  | (.Text, .Small) => .ok (.TextBabbage, [])
  | (.Text, .Medium) => .ok (.TextCurie, [])
  | (.Code, .Medium) => .ok (.CodeCushman, [])
  | (.Text, .Large) => .ok (.TextCurie, [⟨"large", "text"⟩])
  | (.Code, .Large) => .ok (.CodeCushman, [⟨"large", "code"⟩])
  | (.Text, .XLarge) => .ok (.TextCurie, [⟨"x-large", "text"⟩])
  | (.Code, .XLarge) => .ok (.CodeCushman, [⟨"x-large", "code"⟩])
  | (.Code, .XXLarge) => .ok (.CodeDavinci, [])
  | (.Text, .XXLarge) => .ok (.TextDavinci, [])

/-- The resolved model alone, warnings dropped. -/
def resolveModel (f : ModelFocus) (t : Model) : Except SessionError OpenAIModel :=
  (OpenAIModel.tryFrom (f, t)).map Prod.fst

/-- `OpenAITemperature` from src/openai/session.rs lines 61-62
(a newtype around the f32 sampling temperature). -/
structure OpenAITemperature where
  val : ℚ
deriving DecidableEq, Repr

/-- `TryFrom<f32> for OpenAITemperature` (src/openai/session.rs lines 64-73).
The Rust code computes `n.floor() as u32` and accepts the pattern `0..=2`.
The `as u32` cast on a float saturates: every negative value (and NaN)
becomes `0`, and values above `u32::MAX` become `u32::MAX`.  `u` below is
exactly that cast applied to the floored value. -/
def OpenAITemperature.tryFrom (n : ℚ) : Except SessionError OpenAITemperature :=
  let f : ℤ := ⌊n⌋
  let u : ℕ := if f < 0 then 0 else min f.toNat (2 ^ 32 - 1)
  if u ≤ 2 then .ok ⟨n⟩ else .error SessionError.TemperatureOutOfValidRange

/-- `OpenAISessionCommand` from src/openai/session.rs lines 9-14. -/
structure OpenAISessionCommand where
  temperature : OpenAITemperature
  model : OpenAIModel
  response_count : ℕ
deriving DecidableEq, Repr

/-- The single-prompt (completions) request body of
`OpenAISessionCommand::run` (src/openai/session.rs lines 41-47). -/
structure SessionRequestBody where
  model : String
  prompt : String
  max_tokens : ℕ
  temperature : ℚ
  n : ℕ
deriving DecidableEq, Repr

/-- The JSON body built inside `OpenAISessionCommand::run`
(src/openai/session.rs lines 41-47): model is `self.model.to_versioned()`,
max_tokens is the constant 1000, temperature is `self.temperature.0`,
n is `self.response_count`. -/
def OpenAISessionCommand.requestBody (cmd : OpenAISessionCommand) (prompt : String) :
    SessionRequestBody :=
  { model := cmd.model.to_versioned
    prompt := prompt
    max_tokens := 1000
    temperature := cmd.temperature.val
    n := cmd.response_count }

/-! String helpers embedding the Rust `str` primitives used by chat.rs.
They operate on the character list of the string; for the ASCII data of
this program they agree with the Unicode-aware Rust originals. -/

/-- Rust `str::trim_start`: drop leading whitespace. -/
def rsTrimStart (s : String) : String :=
  String.mk (s.toList.dropWhile Char.isWhitespace)

/-- Rust `str::trim`: drop leading and trailing whitespace. -/
def rsTrim (s : String) : String :=
  String.mk (((s.toList.dropWhile Char.isWhitespace).reverse.dropWhile
    Char.isWhitespace).reverse)

/-- Rust `str::to_lowercase` (ASCII fragment). -/
def rsToLower (s : String) : String :=
  String.mk (s.toList.map Char.toLower)

/-- Rust `str::starts_with` for a string pattern. -/
def rsStartsWith (s pat : String) : Bool :=
  pat.toList.isPrefixOf s.toList

/-- Remove the first occurrence of `pat` from the list (helper for
`replacen(pat, "", 1)`). -/
def removeFirstL (pat : List Char) : List Char → List Char
  | [] => if pat.isPrefixOf ([] : List Char) then ([] : List Char).drop pat.length else []
  | c :: cs =>
    if pat.isPrefixOf (c :: cs) then (c :: cs).drop pat.length
    else c :: removeFirstL pat cs

/-- Rust `str::replacen(pat, "", 1)`: delete the first occurrence of `pat`. -/
def rsReplacen1 (s pat : String) : String :=
  String.mk (removeFirstL pat.toList s.toList)

/-! Embedding of src/openai/chat.rs. -/

/-- `crate::chat::ChatRole`.  The declaration lives in `crate::chat`, which
is not part of this source excerpt; the spec (section 3, Role) gives the
enumeration System / User / Assistant, and the chat.rs tests use the
constructor names `System`, `User`, `Ai`. -/
inductive ChatRole where
  | System
  | User
  | Ai
deriving DecidableEq, Repr

/-- Modelled from the spec: the `Display` rendering of a `ChatRole`
(`format!` in `handle_stream_message` uses it) lives in `crate::chat`,
outside this source excerpt; the spec only says the role text is emitted.
The transcript labels of the chat.rs tests suggest the strings below.
No claim depends on the exact rendering. -/
def ChatRole.display : ChatRole → String
  | .System => "SYSTEM"
  | .User => "USER"
  | .Ai => "AI"

/-- `crate::chat::ChatMessage` (spec section 3: role plus content).  The
declaration lives in `crate::chat`, outside this source excerpt. -/
structure ChatMessage where
  role : ChatRole
  content : String
deriving DecidableEq, Repr

/-- `ChatMessageDelta` from src/openai/chat.rs lines 219-223. -/
structure ChatMessageDelta where
  role : Option ChatRole := none
  content : Option String := none
deriving DecidableEq, Repr

/-- `OpenAIFinishReason` from src/openai/chat.rs lines 204-210. -/
inductive OpenAIFinishReason where
  | Stop
  | Length
  | ContentFilter
deriving DecidableEq, Repr

/-- `OpenAIChatChoice` from src/openai/chat.rs lines 197-202. -/
structure OpenAIChatChoice where
  index : Option ℕ := none
  message : Option ChatMessage := none
  finish_reason : Option OpenAIFinishReason := none
deriving DecidableEq, Repr

/-- `OpenAIChatDelta` from src/openai/chat.rs lines 212-217. -/
structure OpenAIChatDelta where
  index : Option ℕ := none
  delta : ChatMessageDelta := {}
  finish_reason : Option String := none
deriving DecidableEq, Repr

/-- Modelled from the spec: `OpenAICompletionResponse` lives in
`crate::openai::response`, which is not part of this source excerpt; the
spec (section 6) gives its shape as an object carrying a `choices` list.
Fields other than `choices` are never read by the code under src/. -/
structure OpenAICompletionResponse (α : Type) where
  choices : List α
deriving DecidableEq, Repr

/-- `StreamMessageState` from src/openai/chat.rs lines 148-153.
New = Fresh, HasWrittenRole = RoleEmitted, HasWrittenContent =
ContentEmitted in the wording of the spec. -/
inductive StreamMessageState where
  | New
  | HasWrittenRole
  | HasWrittenContent
deriving DecidableEq, Repr

/-- Position of a state in the Fresh -> RoleEmitted -> ContentEmitted
order used by the spec invariant. -/
def stateRank : StreamMessageState → ℕ
  | .New => 0
  | .HasWrittenRole => 1
  | .HasWrittenContent => 2

/-- Error type of `crate::chat` as used by src/openai/chat.rs:
`ChatError::OpenAIError`, the `From` conversions applied by the `?`
operator to `serde_json::Error` and to the event-source error, and
`ChatError::Unauthorized`.  Payloads irrelevant to the claims are
abstracted to numeric codes. -/
inductive ChatError where
  | OpenAIError (code : ℕ)
  | SerdeJson (code : ℕ)
  | EventSource (code : ℕ)
  | Unauthorized
deriving DecidableEq, Repr

/-- The first-chunk transform applied inside `handle_stream_message`
(src/openai/chat.rs lines 171-185) while the state is New or
HasWrittenRole: left-trim the fragment, and if it starts with
`prefix_ai` followed by a colon, delete that first occurrence and
left-trim again. -/
def firstChunkFilter (prefixAI content : String) : String :=
  let filtered := rsTrimStart content
  let prefixColon := prefixAI ++ ":"
  if rsStartsWith filtered prefixColon then
    rsTrimStart (rsReplacen1 filtered prefixColon)
  else filtered

/-- The body of `handle_stream_message` after the first choice has been
extracted (src/openai/chat.rs lines 164-194): the role branch runs first
and unconditionally sets HasWrittenRole, then the content branch appends
the (possibly filtered) fragment and sets HasWrittenContent.  Returns the
updated (response buffer, state) pair; the `print!` and `flush` calls are
display-only. -/
def processDelta (prefixAI : String) (delta : ChatMessageDelta)
    (response : String) (state : StreamMessageState) :
    String × StreamMessageState :=
  let rs : String × StreamMessageState :=
    match delta.role with
    | some role => (response ++ role.display, .HasWrittenRole)
    | none => (response, state)
  match delta.content with
  | some content =>
    let filtered :=
      match rs.2 with
      | .New | .HasWrittenRole => firstChunkFilter prefixAI content
      | .HasWrittenContent => content
    (rs.1 ++ filtered, .HasWrittenContent)
  | none => rs

/-- `handle_stream_message` from src/openai/chat.rs lines 155-195, given
an already-parsed frame (the `serde_json::from_str` step is handled by
the caller model, see `StreamData`).  `chat_response.choices.first()
.unwrap()` panics when the list is empty; the panic is modelled as
`none`. -/
def handle_stream_message (prefixAI : String)
    (chatResponse : OpenAICompletionResponse OpenAIChatDelta)
    (response : String) (state : StreamMessageState) :
    Option (String × StreamMessageState) :=
  match chatResponse.choices.head? with
  | none => none
  | some choice => some (processDelta prefixAI choice.delta response state)

/-- Payload of one `Event::Message` of the stream: the code first compares
`message.data` with the done sentinel and otherwise feeds it to
`serde_json::from_str`; the embedding carries the data pre-classified as
the sentinel, a parsed frame, or a parse failure. -/
inductive StreamData where
  | done
  | frame (f : OpenAICompletionResponse OpenAIChatDelta)
  | bad (e : ℕ)
deriving DecidableEq, Repr

/-- One event delivered by the `reqwest_eventsource` stream in
`handle_stream`: `Event::Open`, `Event::Message`, or a transport error. -/
inductive StreamEvent where
  | evOpen
  | message (d : StreamData)
  | error (e : ℕ)
deriving DecidableEq, Repr

/-- Outcome of the event loop of `handle_stream` (src/openai/chat.rs
lines 95-109): the loop either falls through / breaks at the sentinel
with a final state and buffer, returns a `ChatError`, or panics inside
`handle_stream_message`. -/
inductive LoopOut where
  | finished (s : StreamMessageState) (r : String)
  | errored (e : ChatError)
  | panicked
deriving DecidableEq, Repr

/-- The event loop of `handle_stream` (src/openai/chat.rs lines 95-109):
Open events are skipped, the done sentinel breaks the loop, a parse
failure propagates through `?` as a `ChatError`, a transport error
closes the stream and returns `ChatError::EventSource`, and frames are
fed to `handle_stream_message`. -/
def streamLoop (prefixAI : String) :
    List StreamEvent → StreamMessageState → String → LoopOut
  | [], s, r => .finished s r
  | .evOpen :: rest, s, r => streamLoop prefixAI rest s r
  | .message .done :: _, s, r => .finished s r
  | .message (.bad e) :: _, _, _ => .errored (.SerdeJson e)
  | .message (.frame f) :: rest, s, r =>
    match handle_stream_message prefixAI f r s with
    | none => .panicked
    | some pr => streamLoop prefixAI rest pr.2 pr.1
  | .error e :: _, _, _ => .errored (.EventSource e)

/-- `handle_stream` from src/openai/chat.rs lines 89-128, starting after
the request is built: run the event loop from state New with an empty
buffer; on normal termination append one newline to the buffer unless
the state is still New, and hand the buffer over (the success value is
the string passed to `options.file.write`); on error return the error
with no buffer; a panic is `none`. -/
def handle_stream (prefixAI : String) (events : List StreamEvent) :
    Option (Except ChatError String) :=
  match streamLoop prefixAI events .New "" with
  | .finished s r =>
    some (.ok (match s with
      | .New => r
      | .HasWrittenRole | .HasWrittenContent => r ++ "\n"))
  | .errored e => some (.error e)
  | .panicked => none

/-- The response-decoding part of `handle_sync` (src/openai/chat.rs lines
61-72): take the first choice (`unwrap` panic modelled as the outer
`none`), and map over its optional message: trim the content, then
compare its lowercased form against the UN-lowercased `prefix_ai`; on a
match keep it, otherwise prepend the prefix and a colon-space. -/
def handle_sync (prefixAI : String) (choices : List OpenAIChatChoice) :
    Option (Option String) :=
  match choices.head? with
  | none => none
  | some choice =>
    some (choice.message.map fun message =>
      let m := rsTrim message.content
      if rsStartsWith (rsToLower m) prefixAI then m
      else prefixAI ++ ": " ++ m)

/-- The chat-shape request body built by `get_request`
(src/openai/chat.rs lines 130-146): the model field is the string
literal gpt-4 regardless of any session parameter; the message list is
produced by `ChatMessages::try_from` in `crate::chat` (outside this
excerpt) and taken here as an argument. -/
structure ChatRequestBody where
  model : String
  temperature : ℚ
  messages : List ChatMessage
  stream : Bool
deriving DecidableEq, Repr

/-- The JSON body of `get_request` (src/openai/chat.rs lines 139-144). -/
def get_request (temperature : ℚ) (messages : List ChatMessage)
    (stream : Bool) : ChatRequestBody :=
  { model := "gpt-4"
    temperature := temperature
    messages := messages
    stream := stream }

/-- A single-choice frame whose delta carries only a content fragment
(the shape of the C1 delta sequences). -/
def contentFrame (c : String) : OpenAICompletionResponse OpenAIChatDelta :=
  { choices := [{ delta := { role := none, content := some c } }] }

/-- One step of the C1 fold: feed one content-only frame to
`handle_stream_message`. -/
def streamStep (prefixAI : String) (acc : String × StreamMessageState)
    (c : String) : Option (String × StreamMessageState) :=
  handle_stream_message prefixAI (contentFrame c) acc.1 acc.2

/-- Consume a list of content-only deltas from the fresh state with an
empty buffer, exactly as the `handle_stream` loop would. -/
def runDeltas (prefixAI : String) (cs : List String) :
    Option (String × StreamMessageState) :=
  List.foldlM (streamStep prefixAI) ("", .New) cs

/-- Plain concatenation of a list of strings. -/
def joinAll : List String → String
  | [] => ""
  | c :: cs => c ++ joinAll cs

/-- Does `s` contain `pat` as a contiguous substring. -/
def listHasInfix (pat : List Char) : List Char → Bool
  | [] => pat.isEmpty
  | c :: cs => pat.isPrefixOf (c :: cs) || listHasInfix pat cs

/-- String-level contiguous-substring test. -/
def strContains (s pat : String) : Bool :=
  listHasInfix pat.toList s.toList

end AIClient

namespace AIClient

/-- C3: model resolution agrees with the section 4.2 table on all 12
(focus, tier) pairs: the ten successful pairs resolve exactly as listed
(smallest text = text-ada, small = text-babbage, medium text = text-curie,
the two text fallbacks also text-curie, largest text = text-davinci, the
code tiers to code-cushman, largest code to code-davinci), and exactly the
two pairs (Code, Tiny) and (Code, Small) fail with `NoMatchingModel`.
Listing all 12 pairs makes the function total on the domain. -/
theorem c3_model_resolution_table :
    resolveModel .Text .Tiny = .ok .TextAda ∧
    resolveModel .Text .Small = .ok .TextBabbage ∧
    resolveModel .Text .Medium = .ok .TextCurie ∧
    resolveModel .Text .Large = .ok .TextCurie ∧
    resolveModel .Text .XLarge = .ok .TextCurie ∧
    resolveModel .Text .XXLarge = .ok .TextDavinci ∧
    resolveModel .Code .Medium = .ok .CodeCushman ∧
    resolveModel .Code .Large = .ok .CodeCushman ∧
    resolveModel .Code .XLarge = .ok .CodeCushman ∧
    resolveModel .Code .XXLarge = .ok .CodeDavinci ∧
    resolveModel .Code .Tiny = .error .NoMatchingModel ∧
    resolveModel .Code .Small = .error .NoMatchingModel :=
  ⟨rfl, rfl, rfl, rfl, rfl, rfl, rfl, rfl, rfl, rfl, rfl, rfl⟩

/-- C4 (code behaviour at the claimed inputs): the validator accepts 0,
3/2 and 299/100 and rejects 3 and 5 as claimed, but it also ACCEPTS the
input -1/10 even though its integer floor is -1, outside the set that
the claim (and the spec) allow: the Rust cast `n.floor() as u32`
saturates every negative float to 0, which then matches the `0..=2` arm.
This refutes the claim that every input whose floor is outside the set
is rejected. -/
theorem c4_temperature_saturating_cast :
    OpenAITemperature.tryFrom 0 = .ok ⟨0⟩ ∧
    OpenAITemperature.tryFrom (3 / 2) = .ok ⟨3 / 2⟩ ∧
    OpenAITemperature.tryFrom (299 / 100) = .ok ⟨299 / 100⟩ ∧
    OpenAITemperature.tryFrom (-1 / 10) = .ok ⟨-1 / 10⟩ ∧
    OpenAITemperature.tryFrom 3 = .error .TemperatureOutOfValidRange ∧
    OpenAITemperature.tryFrom 5 = .error .TemperatureOutOfValidRange ∧
    ⌊(-1 / 10 : ℚ)⌋ = -1 := by
  have h0 : ⌊(0 : ℚ)⌋ = 0 := by norm_num
  have h32 : ⌊(3 / 2 : ℚ)⌋ = 1 := by rw [Int.floor_eq_iff]; norm_num
  have h299 : ⌊(299 / 100 : ℚ)⌋ = 2 := by rw [Int.floor_eq_iff]; norm_num
  have hneg : ⌊(-1 / 10 : ℚ)⌋ = -1 := by rw [Int.floor_eq_iff]; norm_num
  have h3 : ⌊(3 : ℚ)⌋ = 3 := by norm_num
  have h5 : ⌊(5 : ℚ)⌋ = 5 := by norm_num
  refine ⟨?_, ?_, ?_, ?_, ?_, ?_, hneg⟩ <;>
    simp [OpenAITemperature.tryFrom, h0, h32, h299, hneg, h3, h5]

/-- C8 (code behaviour on the fallback branches): every fallback branch
emits exactly one diagnostic and the exact-match and error branches emit
none, and the resolution still succeeds; but the diagnostic text produced
by `warn_inexact_match!` names the REQUESTED tier and focus in both its
slots — for (Text, Large) it reads "... for large option with a text
focus. Falling back to large option with a text focus." — and never
mentions the substituted tier (the word medium does not occur in it).
This refutes the part of the claim that says the text names the distinct
substituted tier. -/
theorem c8_fallback_warning_text :
    OpenAIModel.tryFrom (.Text, .Large) = .ok (.TextCurie, [⟨"large", "text"⟩]) ∧
    OpenAIModel.tryFrom (.Text, .XLarge) = .ok (.TextCurie, [⟨"x-large", "text"⟩]) ∧
    OpenAIModel.tryFrom (.Code, .Large) = .ok (.CodeCushman, [⟨"large", "code"⟩]) ∧
    OpenAIModel.tryFrom (.Code, .XLarge) = .ok (.CodeCushman, [⟨"x-large", "code"⟩]) ∧
    OpenAIModel.tryFrom (.Text, .Tiny) = .ok (.TextAda, []) ∧
    OpenAIModel.tryFrom (.Text, .Small) = .ok (.TextBabbage, []) ∧
    OpenAIModel.tryFrom (.Text, .Medium) = .ok (.TextCurie, []) ∧
    OpenAIModel.tryFrom (.Text, .XXLarge) = .ok (.TextDavinci, []) ∧
    OpenAIModel.tryFrom (.Code, .Medium) = .ok (.CodeCushman, []) ∧
    OpenAIModel.tryFrom (.Code, .XXLarge) = .ok (.CodeDavinci, []) ∧
    warningMessage ⟨"large", "text"⟩ =
      "warning: No exact matching OpenAI model for large option with a text focus. Falling back to large option with a text focus." ∧
    strContains (warningMessage ⟨"large", "text"⟩) "medium" = false := by
  refine ⟨rfl, rfl, rfl, rfl, rfl, rfl, rfl, rfl, rfl, rfl, ?_, ?_⟩ <;> decide

/-- Once the state is HasWrittenContent, the loop appends every later
content fragment verbatim: folding content-only frames from a buffer `r`
yields `r` followed by the plain concatenation of the fragments. -/
theorem foldlM_content (p : String) :
    ∀ (cs : List String) (r : String),
      List.foldlM (streamStep p) (r, StreamMessageState.HasWrittenContent) cs =
        some (r ++ joinAll cs, .HasWrittenContent) := by
  intro cs
  induction cs with
  | nil => intro r; simp [joinAll, List.foldlM]
  | cons c cs ih =>
    intro r
    have hstep : streamStep p (r, .HasWrittenContent) c =
        some (r ++ c, .HasWrittenContent) := rfl
    rw [List.foldlM_cons, hstep]
    show List.foldlM (streamStep p) (r ++ c, .HasWrittenContent) cs = _
    rw [ih (r ++ c), String.append_assoc]
    rfl

/-- C1: consuming any finite sequence of content-only deltas from the
fresh state assembles the concatenation of all fragments, with only the
first fragment transformed by `firstChunkFilter` (left-trim, strip one
leading prefix-plus-colon occurrence, left-trim again) and every later
fragment appended verbatim; and concretely, with prefix AI, the single
delta content consisting of a newline, five spaces and the text
AI-colon-space-hey-there assembles to exactly hey-there with final state
HasWrittenContent. -/
theorem c1_stream_first_chunk_strip :
    (∀ (p c : String) (cs : List String),
      runDeltas p (c :: cs) =
        some (firstChunkFilter p c ++ joinAll cs, .HasWrittenContent)) ∧
    runDeltas "AI" ["\n     AI: hey there"] =
      some ("hey there", .HasWrittenContent) := by
  constructor
  · intro p c cs
    have h1 : streamStep p ("", .New) c =
        some ("" ++ firstChunkFilter p c, .HasWrittenContent) := rfl
    show List.foldlM (streamStep p) ("", .New) (c :: cs) = _
    rw [List.foldlM_cons, h1]
    show List.foldlM (streamStep p)
      ("" ++ firstChunkFilter p c, .HasWrittenContent) cs = _
    rw [foldlM_content, String.empty_append]
  · decide

/-- If processing one delta leaves the state at New, the state was New
already and the buffer is untouched (no branch of `handle_stream_message`
both writes and stays at New). -/
theorem processDelta_new (p : String) (d : ChatMessageDelta) (r : String)
    (s : StreamMessageState) (h : (processDelta p d r s).2 = .New) :
    s = .New ∧ (processDelta p d r s).1 = r := by
  rcases d with ⟨ro, co⟩
  cases ro <;> cases co <;> cases s <;> simp_all [processDelta]

/-- If the event loop terminates normally still in state New, then it
started in state New and never touched the buffer. -/
theorem streamLoop_finished_new (p : String) :
    ∀ (evs : List StreamEvent) (s0 : StreamMessageState) (r0 r : String),
      streamLoop p evs s0 r0 = .finished .New r → s0 = .New ∧ r = r0 := by
  intro evs
  induction evs with
  | nil =>
    intro s0 r0 r h
    simp only [streamLoop, LoopOut.finished.injEq] at h
    exact ⟨h.1, h.2.symm⟩
  | cons e rest ih =>
    intro s0 r0 r h
    cases e with
    | evOpen => exact ih s0 r0 r h
    | message d =>
      cases d with
      | done =>
        simp only [streamLoop, LoopOut.finished.injEq] at h
        exact ⟨h.1, h.2.symm⟩
      | bad e => simp [streamLoop] at h
      | frame f =>
        rcases f with ⟨choices⟩
        cases choices with
        | nil => simp [streamLoop, handle_stream_message] at h
        | cons c cs =>
          simp only [streamLoop, handle_stream_message, List.head?] at h
          obtain ⟨h1, h2⟩ := ih _ _ r h
          obtain ⟨hs, hr⟩ := processDelta_new p c.delta r0 s0 h1
          exact ⟨hs, by rw [h2, hr]⟩
    | error e => simp [streamLoop] at h

/-- C2: when the event loop of `handle_stream` terminates normally with
state `s` and buffer `r`, the returned buffer is `r` with exactly one
newline appended when `s` is not New, and is `r` itself when `s` is
still New; moreover a final state of New forces the buffer to be empty,
so an empty stream yields an empty buffer with no newline. -/
theorem c2_stream_end_newline (p : String) (evs : List StreamEvent)
    (s : StreamMessageState) (r : String)
    (h : streamLoop p evs .New "" = .finished s r) :
    handle_stream p evs = some (.ok (if s = .New then r else r ++ "\n")) ∧
    (s = .New → r = "") := by
  constructor
  · unfold handle_stream
    rw [h]
    cases s <;> simp
  · intro hs
    subst hs
    exact (streamLoop_finished_new p evs .New "" r h).2

/-- Witness for C2 at a concrete one-frame stream. -/
theorem c2_witness :
    handle_stream "AI" [StreamEvent.message (StreamData.frame (contentFrame "x"))] =
      some (.ok "x\n") :=
  ((c2_stream_end_newline "AI"
    [StreamEvent.message (StreamData.frame (contentFrame "x"))]
    .HasWrittenContent "x" (by decide)).1).trans (by decide)

/-- C5 (code behaviour at the claimed inputs): the sync decoder trims the
first choice content, but its prefix test lowercases only the content
and compares it against the UN-lowercased prefix, so with prefix AI the
test never matches: content already labelled AI-colon (in either case)
still gets a second prefix prepended.  Only an already-lowercase prefix
behaves case-insensitively.  This refutes the claimed case-insensitive
no-double-prefix normalization. -/
theorem c5_sync_prefix_case_mismatch :
    handle_sync "AI" [{ message := some { role := .Ai, content := " AI: hey " } }] =
      some (some "AI: AI: hey") ∧
    handle_sync "AI" [{ message := some { role := .Ai, content := "ai: hey" } }] =
      some (some "AI: ai: hey") ∧
    handle_sync "ai" [{ message := some { role := .Ai, content := "AI: hey" } }] =
      some (some "AI: hey") := by
  refine ⟨?_, ?_, ?_⟩ <;> decide

/-- Counterexample for C6: the chat-shape request body always carries the
fixed model string gpt-4, which differs from the identifier the section
4.2 table resolves for (Text, XXLarge); so the chat shape does not use
the resolution table. -/
theorem c6_counterexample_chat_model_hardcoded :
    (get_request 1 [] true).model = "gpt-4" ∧
    resolveModel .Text .XXLarge = .ok .TextDavinci ∧
    (get_request 1 [] true).model ≠ OpenAIModel.TextDavinci.to_versioned := by
  refine ⟨rfl, rfl, ?_⟩
  decide

/-- C6 as amended: only the single-prompt shape carries the resolved
model identifier from the section 4.2 table; the chat shape always sends
the fixed identifier gpt-4, which is not one of the table identifiers. -/
theorem c6_request_model_fields :
    (∀ (t : ℚ) (msgs : List ChatMessage) (st : Bool),
      (get_request t msgs st).model = "gpt-4") ∧
    (∀ (cmd : OpenAISessionCommand) (prompt : String),
      (cmd.requestBody prompt).model = cmd.model.to_versioned) ∧
    (∀ m : OpenAIModel, m.to_versioned ≠ "gpt-4") := by
  refine ⟨fun _ _ _ => rfl, fun _ _ => rfl, ?_⟩
  intro m
  cases m <;> decide

/-- Counterexample for C7: a delta carrying a role and no content,
processed while the state is HasWrittenContent, moves the state back to
HasWrittenRole — a strict regression in the Fresh -> RoleEmitted ->
ContentEmitted order, refuting the claimed invariant. -/
theorem c7_counterexample_role_regression :
    (processDelta "AI" { role := some ChatRole.Ai, content := none }
      "buf" .HasWrittenContent).2 = .HasWrittenRole ∧
    stateRank (processDelta "AI" { role := some ChatRole.Ai, content := none }
      "buf" .HasWrittenContent).2 < stateRank .HasWrittenContent := by
  refine ⟨?_, ?_⟩ <;> decide

/-- C7 as amended: the state never regresses on any delta that carries no
role or that carries content; only a role-bearing, content-free delta can
regress it (role unconditionally sets HasWrittenRole, and content then
sets HasWrittenContent). -/
theorem c7_state_monotone (p : String) (d : ChatMessageDelta) (r : String)
    (s : StreamMessageState) (h : d.role = none ∨ d.content ≠ none) :
    stateRank s ≤ stateRank (processDelta p d r s).2 := by
  rcases d with ⟨ro, co⟩
  cases ro <;> cases co <;> cases s <;>
    simp_all [processDelta, stateRank]

/-- Witness for C7 as amended at a concrete content-only delta. -/
theorem c7_state_monotone_witness :
    stateRank .New ≤ stateRank (processDelta "AI"
      { role := none, content := some "x" } "" .New).2 :=
  c7_state_monotone "AI" { role := none, content := some "x" } "" .New (Or.inl rfl)

/-- C9: a transport error makes the event loop return immediately with
`ChatError::EventSource`, for every accumulated state and buffer — the
result carries only the error, so the partially assembled buffer (the
universally quantified `r`) is discarded; and `handle_stream` maps every
errored loop to an error value with no partial-success data. -/
theorem c9_stream_error_discards_buffer (p : String) :
    (∀ (rest : List StreamEvent) (s : StreamMessageState) (r : String) (e : ℕ),
      streamLoop p (.error e :: rest) s r = .errored (.EventSource e)) ∧
    (∀ (evs : List StreamEvent) (err : ChatError),
      streamLoop p evs .New "" = .errored err →
      handle_stream p evs = some (.error err)) := by
  constructor
  · intro rest s r e
    rfl
  · intro evs err h
    unfold handle_stream
    rw [h]

/-- Witness for C9 at a concrete one-event erroring stream. -/
theorem c9_witness :
    handle_stream "AI" [StreamEvent.error 7] = some (.error (.EventSource 7)) :=
  (c9_stream_error_discards_buffer "AI").2 [StreamEvent.error 7] (.EventSource 7) rfl

/-- C10: both decoders panic (modelled as `none`) exactly when the
decoded choices list is empty — `handle_sync` takes
`choices.first().unwrap()` and `handle_stream_message` does the same on
its frame — so absence of a panic is guaranteed exactly under the
precondition that every response or frame has at least one choice. -/
theorem c10_empty_choices_panic :
    ∀ (p : String) (choices : List OpenAIChatChoice)
      (f : OpenAICompletionResponse OpenAIChatDelta)
      (r : String) (s : StreamMessageState),
      (handle_sync p choices = none ↔ choices = []) ∧
      (handle_stream_message p f r s = none ↔ f.choices = []) := by
  intro p choices f r s
  constructor
  · cases choices <;> simp [handle_sync]
  · rcases f with ⟨ch⟩
    cases ch <;> simp [handle_stream_message]

end AIClient
